import Mathlib

/-
  Verification development for the micro-lab-ocr backend
  (OCR-result normalization and record-reconstruction pipeline).

  The Python sources under src/ are embedded shallowly: strings are
  `List Char` internally (wrapped in `String` at the API boundary), the
  sparse cell matrix is an association list preserving insertion order
  (mirroring Python dict semantics), and every regular expression used by
  the code is implemented either through a small backtracking regex
  interpreter (`Re` / `matchFrom`, priority order identical to Python's
  leftmost / greedy backtracking search) or as a hand-written anchored
  parser when capture groups are needed.
-/

namespace MicroLabOcr

/-! ### Character classes (Python `\d`, `\s`, `\w`, case maps, ASCII only: all
    data handled by the claims is ASCII apart from fixed literal glyphs such
    as ×, ≤, °, €, …, Ò and the Korean markers, none of which is case-mapped
    by Python either) -/

def isPyDigit (c : Char) : Bool := '0' ≤ c && c ≤ '9'

def isPySpace (c : Char) : Bool :=
  c = ' ' || c = '\t' || c = '\n' || c = '\r' || c = '\x0b' || c = '\x0c'

def isAsciiUpperCh (c : Char) : Bool := 'A' ≤ c && c ≤ 'Z'

def isAsciiLowerCh (c : Char) : Bool := 'a' ≤ c && c ≤ 'z'

def upCh (c : Char) : Char :=
  if isAsciiLowerCh c then Char.ofNat (c.toNat - 32) else c

def downCh (c : Char) : Char :=
  if isAsciiUpperCh c then Char.ofNat (c.toNat + 32) else c

def isWordCh (c : Char) : Bool :=
  isPyDigit c || isAsciiUpperCh c || isAsciiLowerCh c || c = '_'

/-! ### List-of-characters utilities -/

def upperL (s : List Char) : List Char := s.map upCh

def lowerL (s : List Char) : List Char := s.map downCh

/-- Python `str.strip()`. -/
def trimL (s : List Char) : List Char :=
  ((s.dropWhile isPySpace).reverse.dropWhile isPySpace).reverse

/-- Does `pat` occur at the head of `s`? -/
def headIsL : List Char → List Char → Bool
  | [], _ => true
  | _ :: _, [] => false
  | p :: ps, c :: cs => p = c && headIsL ps cs

/-- Python `pat in s` (substring containment). -/
def containsSubL (pat s : List Char) : Bool :=
  match s with
  | [] => headIsL pat []
  | _ :: rest => headIsL pat s || containsSubL pat rest

/-- Remove every occurrence of one character (Python `replace(c, '')`). -/
def removeCh (x : Char) (s : List Char) : List Char := s.filter (fun c => c ≠ x)

/-- Replace every occurrence of one character by another. -/
def replaceCh (x y : Char) (s : List Char) : List Char :=
  s.map (fun c => if c = x then y else c)

/-- Python `str.replace(pat, "")` for a non-empty literal pattern (the fuel
    argument, at least the input length, makes the recursion structural; each
    step consumes at least one character). -/
def removeSubAux (pat : List Char) : Nat → List Char → List Char
  | _, [] => []
  | 0, s => s
  | fuel + 1, c :: rest =>
    if headIsL pat (c :: rest) && !pat.isEmpty then
      removeSubAux pat fuel (rest.drop (pat.length - 1))
    else
      c :: removeSubAux pat fuel rest

def removeSubL (pat : List Char) (s : List Char) : List Char :=
  removeSubAux pat s.length s

def joinSpace : List (List Char) → List Char
  | [] => []
  | [x] => x
  | x :: xs => x ++ ' ' :: joinSpace xs

/-- First-occurrence-preserving de-duplication (Python `dict.fromkeys`). -/
def dedupL : List (List Char) → List (List Char)
  | [] => []
  | x :: xs => x :: (dedupL xs).filter (fun y => y ≠ x)

/-! ### A small regex interpreter.

Semantics follow Python `re`: `matchFrom` returns the list of possible
remainder suffixes of a match starting at the head of the input, in exactly
Python's backtracking priority order (alternation: left first; `*`, `+`, `?`,
`{m,n}`: greedy). -/

inductive Re where
  | eps : Re
  | cls : (Char → Bool) → Re
  | seq : Re → Re → Re
  | alt : Re → Re → Re
  | star : Re → Re

/-- greedy unrolling of `star` (`step` is the matcher of the starred
    sub-pattern; each iteration must consume at least one character, so a fuel
    of the local input length plus one never cuts a real match short) -/
def starFromAux (step : List Char → List (List Char)) : Nat → List Char → List (List Char)
  | 0, s => [s]
  | fuel + 1, s =>
      ((step s).filter (fun r => r.length < s.length)).flatMap
        (starFromAux step fuel) ++ [s]

def matchFrom : Re → List Char → List (List Char)
  | .eps, s => [s]
  | .cls _, [] => []
  | .cls p, c :: rest => if p c then [rest] else []
  | .seq a b, s => (matchFrom a s).flatMap (matchFrom b)
  | .alt a b, s => matchFrom a s ++ matchFrom b s
  | .star a, s => starFromAux (matchFrom a) (s.length + 1) s

def Re.lit (c : Char) : Re := .cls (fun x => x = c)

def Re.litStr (cs : List Char) : Re := cs.foldr (fun c r => .seq (.lit c) r) .eps

/-- `r?` (greedy). -/
def Re.opt (r : Re) : Re := .alt r .eps

/-- `r{0,k}` (greedy). -/
def Re.upTo : Nat → Re → Re
  | 0, _ => .eps
  | k + 1, r => .alt (.seq r (Re.upTo k r)) .eps

/-- `r{n}`. -/
def Re.exactly : Nat → Re → Re
  | 0, _ => .eps
  | k + 1, r => .seq r (Re.exactly k r)

/-- `r{lo,hi}` (greedy). -/
def Re.rng (lo hi : Nat) (r : Re) : Re := .seq (Re.exactly lo r) (Re.upTo (hi - lo) r)

/-- `r+` (greedy). -/
def Re.plus (r : Re) : Re := .seq r (.star r)

/-- Python `re.fullmatch` (equivalently `re.match` of a `^...$` pattern). -/
def reFull (r : Re) (s : List Char) : Bool :=
  (matchFrom r s).any (fun rest => rest.isEmpty)

/-- Python `re.match` of a `^...` pattern without `$`: a prefix match. -/
def reAtStart (r : Re) (s : List Char) : Bool :=
  !(matchFrom r s).isEmpty

/-- One search step: the first (leftmost, then backtracking-priority-first)
match whose start passes `pre` (given the preceding character) and whose end
passes `post` (given the remainder).  Returns the matched text, the remainder,
and the last character of the match (for word-boundary tracking in `findall`).
`pre`/`post` are `fun _ => true` for patterns without `\b`. -/
def searchStep (r : Re) (pre : Option Char → Bool) (post : List Char → Bool) :
    Option Char → List Char → Option (List Char × List Char × Option Char)
  | _, [] =>
      none
  | prev, s@(c :: rest) =>
      (if pre prev then
        match (matchFrom r s).filter post with
        | [] => none
        | rem :: _ =>
          let txt := s.take (s.length - rem.length)
          some (txt, rem, txt.getLast?)
      else none).orElse (fun _ => searchStep r pre post (some c) rest)

/-- A zero-length match at end-of-string (possible when `r` is nullable and
`pre`/`post` accept); Python would report it, but every pattern in this code
base starts with a mandatory character, so we follow the non-nullable case. -/
def reSearch (r : Re) (pre : Option Char → Bool) (post : List Char → Bool)
    (s : List Char) : Option (List Char) :=
  (searchStep r pre post none s).map (fun t => t.1)

/-- Python `re.findall` (non-overlapping, scanning left to right). -/
def reFindAll (fuel : Nat) (r : Re) (pre : Option Char → Bool)
    (post : List Char → Bool) (prev : Option Char) (s : List Char) :
    List (List Char) :=
  match fuel with
  | 0 => []
  | fuel + 1 =>
    match searchStep r pre post prev s with
    | none => []
    | some (txt, rem, lastc) =>
      if txt.isEmpty then [] else
      txt :: reFindAll fuel r pre post lastc rem

def reFindAllTop (r : Re) (pre : Option Char → Bool) (post : List Char → Bool)
    (s : List Char) : List (List Char) :=
  reFindAll (s.length + 1) r pre post none s

/-- Word-boundary `\b` just before a word character. -/
def bdPre : Option Char → Bool
  | none => true
  | some c => !isWordCh c

/-- Word-boundary `\b` just after a word character. -/
def bdPost : List Char → Bool
  | [] => true
  | c :: _ => !isWordCh c

def noPre : Option Char → Bool := fun _ => true

def noPost : List Char → Bool := fun _ => true

def Re.cat : List Re → Re
  | [] => .eps
  | [r] => r
  | r :: rs => .seq r (Re.cat rs)

def reDigit : Re := .cls isPyDigit

def reSpace : Re := .cls isPySpace

/-- membership of a `List Char` value in a list of string literals -/
def inStrL (v : List Char) (l : List String) : Bool := l.any (fun p => p.data == v)

/-! ### Value Normalizer (backend_preservation.py)

`_split_merged_cells`, `_remove_noise`, `_fix_less_than_10`,
`_normalize_scientific`, `_fix_7day_ambiguous`, `_clean_cfu_value`. -/

/-- scientific-token pattern of `_split_merged_cells`:
    digits, optional dot+digits, an x/X/× sign, `10`, optional caret, digits -/
def reSciTok : Re := Re.cat
  [Re.plus reDigit, Re.opt (Re.lit '.'), .star reDigit,
   .cls (fun c => c = '×' || c = 'x' || c = 'X'),
   Re.lit '1', Re.lit '0', Re.opt (Re.lit '^'), Re.plus reDigit]

/-- detection-limit token pattern of `_split_merged_cells`: `<`, spaces, digits -/
def reLtTok : Re := Re.cat [Re.lit '<', .star reSpace, Re.plus reDigit]

def splitMergedCellsL (value : List Char) : List Char :=
  if value.isEmpty then value else
  let sciMatches := reFindAllTop reSciTok noPre noPost value
  if 2 ≤ sciMatches.length then sciMatches.headD value
  else
    let lessMatches := reFindAllTop reLtTok noPre noPost value
    if 2 ≤ lessMatches.length then lessMatches.headD value
    else value

def removeNoiseL (value : List Char) : List Char :=
  if value.isEmpty then value else
  let v := removeSubL ":selected:".data value
  let v := removeSubL ":unselected:".data v
  let v := removeCh '"' v
  let v := removeCh '\'' v
  let v := removeCh '°' v
  let v := removeCh '€' v
  let v := replaceCh '\n' ' ' v
  trimL v

/-- the literal misread-token table mapped to `<10` -/
def lessThan10Patterns : List String :=
  ["40", "40°", "40€",
   "CIO", "CIÒ", "C10", "410", "90",
   "Lio", "LIO", "Clo", "CLO",
   "CO", "cio", "clo",
   "L10", "L 10", "L10\"", "L 10\"",
   "€10", "€ 10",
   "010", "(10)", "(10", "10)",
   "(1)", "(1", "1)",
   "2 <10",
   "LION", "LION,", "Lion", "lion",
   "zion", "Zion", "ZION",
   "40L", "10L",
   "400", "4100",
   "610",
   "Cle", "CLE", "Cia", "CIA",
   "CCO", "cco",
   "00",
   "COL", "Col",
   "clo\"", "clo'"]

/-- pattern 1-1: `<`, spaces, `10`, one or more of `?`/`-`/`)`, end -/
def reLt10Junk : Re := Re.cat
  [Re.lit '<', .star reSpace, Re.lit '1', Re.lit '0',
   Re.plus (.cls (fun c => c = '?' || c = '-' || c = ')'))]

/-- pattern 1-2 (prefix, ignore-case): `<`, spaces, one of c/z/s, `ion` -/
def reLtCion : Re := Re.cat
  [Re.lit '<', .star reSpace,
   .cls (fun c => c = 'c' || c = 'z' || c = 's' || c = 'C' || c = 'Z' || c = 'S'),
   .cls (fun c => c = 'i' || c = 'I'), .cls (fun c => c = 'o' || c = 'O'),
   .cls (fun c => c = 'n' || c = 'N')]

/-- pattern 2-1: `<`, spaces, `10`, optional caret, `2`, end -/
def reLt102 : Re := Re.cat
  [Re.lit '<', .star reSpace, Re.lit '1', Re.lit '0', Re.opt (Re.lit '^'), Re.lit '2']

/-- pattern 2-1-1: same with an optional trailing comma -/
def reLt102Comma : Re := .seq reLt102 (Re.opt (Re.lit ','))

/-- pattern 2-2: `<`, spaces, `10`, spaces, `2`, end -/
def reLt10Sp2 : Re := Re.cat
  [Re.lit '<', .star reSpace, Re.lit '1', Re.lit '0', Re.plus reSpace, Re.lit '2']

/-- pattern 2-6-1 (ignore-case): one of S/C, `I`, optional `0`, `2`, optional comma -/
def reSci02Comma : Re := Re.cat
  [.cls (fun c => c = 'S' || c = 'C' || c = 's' || c = 'c'),
   .cls (fun c => c = 'I' || c = 'i'),
   Re.opt (Re.lit '0'), Re.lit '2', Re.opt (Re.lit ',')]

/-- pattern 2-7: one of 5/C/6, `/`, optional `0`, `2`, end -/
def re5C6Slash : Re := Re.cat
  [.cls (fun c => c = '5' || c = 'C' || c = '6'), Re.lit '/',
   Re.opt (Re.lit '0'), Re.lit '2']

/-- pattern 2-8: `(`, spaces, `1`, optional `0`, `2`, optional comma, end -/
def reParen102 : Re := Re.cat
  [Re.lit '(', .star reSpace, Re.lit '1', Re.opt (Re.lit '0'), Re.lit '2',
   Re.opt (Re.lit ',')]

/-- pattern 2-9 (ignore-case): one of S/C, `I`, optional `0`, `2`, spaces, `2`, end -/
def reSci02Sp2 : Re := Re.cat
  [.cls (fun c => c = 'S' || c = 'C' || c = 's' || c = 'c'),
   .cls (fun c => c = 'I' || c = 'i'),
   Re.opt (Re.lit '0'), Re.lit '2', Re.plus reSpace, Re.lit '2']

/-- pattern 2-10: digits, one of 4/5, `102`, end -/
def reNoise45102 : Re := Re.cat
  [Re.plus reDigit, .cls (fun c => c = '4' || c = '5'),
   Re.lit '1', Re.lit '0', Re.lit '2']

/-- pattern 3-3 (prefix): digits, spaces, `<`, spaces, `10` -/
def reNumLt10 : Re := Re.cat
  [Re.plus reDigit, .star reSpace, Re.lit '<', .star reSpace, Re.lit '1', Re.lit '0']

/-- pattern 5: `<`, spaces, `10`, then only quote/space/`?`/`-`/`)` characters -/
def reLt10Quote : Re := Re.cat
  [Re.lit '<', .star reSpace, Re.lit '1', Re.lit '0',
   .star (.cls (fun c => c = '"' || c = '\'' || isPySpace c || c = '?' || c = '-' || c = ')'))]

def fixLessThan10L (value0 : List Char) : List Char :=
  if value0.isEmpty then value0 else
  let value := trimL value0
  if inStrL value ["...", "....", "…"] then [] else
  if inStrL value lessThan10Patterns then "<10".data else
  if reFull reLt10Junk value then "<10".data else
  if reAtStart reLtCion value then "<10".data else
  if reFull reDigit value then "<10".data else
  if value == "00".data then "<10".data else
  if reFull reLt102 value then "<10^2".data else
  if reFull reLt102Comma value then "<10^2".data else
  if reFull reLt10Sp2 value then "<10^2".data else
  if inStrL value ["4102", "5102", "6102", "512"] then "<10^2".data else
  if inStrL value ["<12", "<62", "<1.2"] then "<10^2".data else
  if inStrL value ["GIO2", "GI02", "CIS2", "C12", "C102"] then "<10^2".data else
  if inStrL value ["CIO2", "Clo2", "CI02", "ClO2"] then "<10^2".data else
  if reFull reSci02Comma value then "<10^2".data else
  if reFull re5C6Slash value then "<10^2".data else
  if reFull reParen102 value then "<10^2".data else
  if reFull reSci02Sp2 value then "<10^2".data else
  if reFull reNoise45102 value then "<10^2".data else
  if inStrL value ["110", "210", "2103", "510"] then "<10".data else
  if inStrL value ["<1>", "LU", "/10"] then "<10".data else
  if reAtStart reNumLt10 value then "<10".data else
  if value == "103".data then "<10^3".data else
  if reFull reLt10Quote value then "<10".data else
  if value == "<10".data || value == "< 10".data then "<10".data else
  value

/-- `_normalize_scientific` pattern 1 matched at the head of the input:
    returns (mantissa group, exponent group).  Mirrors the greedy behaviour of
    `(\d+\.?\d*)\s*[×]\s*10\s*(\d*)` (backtracking cannot rescue a failed
    greedy attempt here: shrinking a digit run leaves a digit where `×` or a
    space is required). -/
def sciAt1 (s : List Char) : Option (List Char × List Char) :=
  let ds1 := s.takeWhile isPyDigit
  if ds1.isEmpty then none else
  let r1 := s.dropWhile isPyDigit
  let (dot, r2) : List Char × List Char :=
    match r1 with
    | '.' :: t => (['.'], t)
    | _ => ([], r1)
  let ds2 := r2.takeWhile isPyDigit
  let r3 := (r2.dropWhile isPyDigit).dropWhile isPySpace
  match r3 with
  | '×' :: r4 =>
    match (r4.dropWhile isPySpace) with
    | '1' :: '0' :: r5 =>
      some (ds1 ++ dot ++ ds2, ((r5.dropWhile isPySpace).takeWhile isPyDigit))
    | _ => none
  | _ => none

/-- leftmost occurrence of `_normalize_scientific` pattern 1 (`re.search`) -/
def sciSearch1 : List Char → Option (List Char × List Char)
  | [] => none
  | c :: rest => (sciAt1 (c :: rest)).orElse (fun _ => sciSearch1 rest)

/-- `_normalize_scientific` pattern 2 `(\d+\.?\d*)[×]10(\d+)` at the head -/
def sciAt2 (s : List Char) : Option (List Char × List Char) :=
  let ds1 := s.takeWhile isPyDigit
  if ds1.isEmpty then none else
  let r1 := s.dropWhile isPyDigit
  let (dot, r2) : List Char × List Char :=
    match r1 with
    | '.' :: t => (['.'], t)
    | _ => ([], r1)
  let ds2 := r2.takeWhile isPyDigit
  let r3 := r2.dropWhile isPyDigit
  match r3 with
  | '×' :: '1' :: '0' :: r4 =>
    let e := r4.takeWhile isPyDigit
    if e.isEmpty then none else some (ds1 ++ dot ++ ds2, e)
  | _ => none

def sciSearch2 : List Char → Option (List Char × List Char)
  | [] => none
  | c :: rest => (sciAt2 (c :: rest)).orElse (fun _ => sciSearch2 rest)

def sciPrefixOf (value : List Char) : List Char :=
  match value with
  | '<' :: _ => ['<']
  | '≤' :: _ => ['≤']
  | _ => []

def normalizeScientificL (value0 : List Char) : List Char :=
  if value0.isEmpty then value0 else
  let value := replaceCh 'x' '×' (replaceCh 'X' '×' (trimL value0))
  match sciSearch1 value with
  | some (base, expo) =>
    sciPrefixOf value ++ base ++ '×' :: '1' :: '0' :: '^' ::
      (if expo.isEmpty then ['0'] else expo)
  | none =>
    match sciSearch2 value with
    | some (base, expo) => sciPrefixOf value ++ base ++ '×' :: '1' :: '0' :: '^' :: expo
    | none => value

def clearLess10Patterns : List String := ["< 10", "<10", "< 10\"", "<10\"", "< 10'"]

def ambiguous7Patterns : List String := ["40", "40°", "40€", "CIO", "CIÒ", "C10", "410", "90"]

/-- `_fix_7day_ambiguous(value, original)` -/
def fix7dayAmbiguousL (value original : List Char) : List Char :=
  if value.contains '^' then value else
  if value ≠ "<10".data then value else
  let origClean := trimL original
  if clearLess10Patterns.any
      (fun p => origClean == p.data || origClean == (p.data.filter (fun c => c ≠ ' ')))
    then "<10".data else
  if ambiguous7Patterns.any (fun p => containsSubL p.data origClean)
    then "<10^2".data else
  "<10".data

/-- `_clean_cfu_value(value, strain, day_column)` — the Value Normalizer. -/
def cleanCfuValueL (value0 strain dayColumn : List Char) : List Char :=
  if value0.isEmpty then [] else
  let v1 := splitMergedCellsL value0
  let v2 := removeNoiseL v1
  if dayColumn == "0일".data then
    normalizeScientificL v2
  else
    let v3 := fixLessThan10L v2
    let v4 := normalizeScientificL v3
    if dayColumn == "7일".data then fix7dayAmbiguousL v4 value0 else v4

def cleanCfuValue (value strain dayColumn : String) : String :=
  String.mk (cleanCfuValueL value.data strain.data dayColumn.data)

def dayColumns : List String := ["0일", "7일", "14일", "28일"]

/-! ### Identifier Extractor (backend_preservation.py `_extract_test_info_from_row`) -/

/-- Python `re.sub(r'-\s+', '-', s)` (fuel at least the input length) -/
def subDashSpaceAux : Nat → List Char → List Char
  | _, [] => []
  | 0, s => s
  | fuel + 1, '-' :: rest =>
    if (rest.takeWhile isPySpace).isEmpty then '-' :: subDashSpaceAux fuel rest
    else '-' :: subDashSpaceAux fuel (rest.dropWhile isPySpace)
  | fuel + 1, c :: rest => c :: subDashSpaceAux fuel rest

def subDashSpaceL (s : List Char) : List Char := subDashSpaceAux s.length s

/-- Python `re.sub(r'\s+-', '-', s)` (fuel at least the input length) -/
def subSpaceDashAux : Nat → List Char → List Char
  | _, [] => []
  | 0, s => s
  | fuel + 1, c :: rest =>
    if isPySpace c then
      match rest.dropWhile isPySpace with
      | '-' :: t => '-' :: subSpaceDashAux fuel t
      | _ => (c :: rest.takeWhile isPySpace) ++ subSpaceDashAux fuel (rest.dropWhile isPySpace)
    else c :: subSpaceDashAux fuel rest

def subSpaceDashL (s : List Char) : List Char := subSpaceDashAux s.length s

/-- Python `re.sub(r'-+', '-', s)` (fuel at least the input length) -/
def collapseDashAux : Nat → List Char → List Char
  | _, [] => []
  | 0, s => s
  | fuel + 1, '-' :: rest => '-' :: collapseDashAux fuel (rest.dropWhile (fun c => c = '-'))
  | fuel + 1, c :: rest => c :: collapseDashAux fuel rest

def collapseDashL (s : List Char) : List Char := collapseDashAux s.length s

/-- Python `re.sub(r'\s+', ' ', s)` (fuel at least the input length) -/
def collapseSpaceAux : Nat → List Char → List Char
  | _, [] => []
  | 0, s => s
  | fuel + 1, c :: rest =>
    if isPySpace c then ' ' :: collapseSpaceAux fuel (rest.dropWhile isPySpace)
    else c :: collapseSpaceAux fuel rest

def collapseSpaceL (s : List Char) : List Char := collapseSpaceAux s.length s

/-- preprocessing of `_extract_test_info_from_row`: uppercase, `!`/`|` → `I`,
    dash/whitespace collapsing -/
def rowTextPreL (s : List Char) : List Char :=
  collapseSpaceL (collapseDashL (subSpaceDashL (subDashSpaceL
    (replaceCh '|' 'I' (replaceCh '!' 'I' (upperL s))))))

/-- test-number pattern `2[0-9][A-Z]\d{2}[I!|1]\d{2}` (between `\b`) -/
def reTestPat1 : Re := Re.cat
  [Re.lit '2', reDigit, .cls isAsciiUpperCh, reDigit, reDigit,
   .cls (fun c => c = 'I' || c = '!' || c = '|' || c = '1'), reDigit, reDigit]

/-- test-number pattern `2[0-9][E]\d{2}1\d{2}` (between `\b`) -/
def reTestPat2 : Re := Re.cat
  [Re.lit '2', reDigit, Re.lit 'E', reDigit, reDigit, Re.lit '1', reDigit, reDigit]

/-- Python `re.sub(r'([A-Z])(\d{2})1(\d{2})', r'\g<1>\g<2>I\g<3>', s)` -/
def subLd21dL : List Char → List Char
  | a :: b :: c :: d :: e :: f :: rest =>
    if isAsciiUpperCh a && isPyDigit b && isPyDigit c && d = '1' && isPyDigit e && isPyDigit f
    then a :: b :: c :: 'I' :: e :: f :: subLd21dL rest
    else a :: subLd21dL (b :: c :: d :: e :: f :: rest)
  | s => s

/-- the corrections applied to a raw test-number match (1 → I, | → I, ! → I) -/
def testNumCorrect (m : List Char) : List Char :=
  replaceCh '!' 'I' (replaceCh '|' 'I' (subLd21dL m))

def testNumberOf (pre : List Char) : List Char :=
  match reSearch reTestPat1 bdPre bdPost pre with
  | some m => testNumCorrect m
  | none =>
    match reSearch reTestPat2 bdPre bdPost pre with
    | some m => testNumCorrect m
    | none => []

def reU : Re := .cls isAsciiUpperCh

/-- the 14 prescription-number patterns, in source order (each between `\b`) -/
def prescriptionPatterns : List Re :=
  [Re.cat [Re.rng 2 4 reU, Re.rng 4 5 reDigit, Re.opt reU, Re.lit '-', Re.rng 1 5 reU, Re.opt reDigit],
   Re.cat [Re.exactly 3 reU, Re.exactly 5 reDigit, Re.lit '-', Re.rng 2 4 reU],
   Re.cat [Re.lit 'M', Re.lit '-', Re.rng 2 4 reU, Re.rng 4 5 reDigit, Re.lit '-', Re.rng 1 4 reU, Re.opt reDigit],
   Re.cat [Re.rng 2 4 reU, Re.rng 3 6 reDigit, Re.lit '-', Re.rng 1 5 reU],
   Re.cat [Re.rng 2 5 reU, Re.exactly 4 reDigit, Re.lit '-', Re.rng 1 3 reU, Re.rng 0 2 reDigit],
   Re.cat [Re.rng 1 3 reU, Re.rng 4 5 reDigit, Re.lit '-', Re.rng 2 4 reU, Re.opt reU],
   Re.cat [Re.rng 2 4 reU, Re.exactly 4 reDigit, Re.lit '-', reU, reDigit, Re.rng 1 3 reU],
   Re.cat [Re.rng 2 4 reU, Re.rng 3 4 reDigit, Re.opt reU, Re.lit '-', Re.rng 1 4 reU, .star reDigit],
   Re.cat [Re.rng 2 4 reU, Re.exactly 4 reDigit, Re.lit '-', Re.rng 1 2 reDigit, Re.rng 1 2 reU],
   Re.cat [Re.rng 2 4 reU, Re.rng 4 5 reDigit, Re.opt reU, Re.lit '-', .star reSpace, Re.rng 1 5 reU, Re.opt reDigit],
   Re.cat [Re.rng 2 4 reU, Re.rng 4 5 reDigit, Re.opt reU, Re.lit '-', .star reSpace, Re.plus reU, Re.plus reDigit, Re.plus reU],
   Re.cat [Re.rng 2 4 reU, Re.rng 4 5 reDigit, Re.opt reU, Re.lit '-', Re.rng 1 5 reU, reDigit, Re.plus reU],
   Re.cat [Re.rng 2 4 reU, Re.rng 3 5 reDigit, Re.lit '-', Re.rng 1 4 reU, Re.rng 1 2 reDigit],
   Re.cat [Re.rng 2 5 reU, Re.rng 3 5 reDigit, Re.lit '-', Re.rng 2 5 reU, .star (.alt reU reDigit)]]

def firstSearch : List Re → List Char → Option (List Char)
  | [], _ => none
  | r :: rs, s => (reSearch r bdPre bdPost s).orElse (fun _ => firstSearch rs s)

def prescriptionOf (pre : List Char) : List Char :=
  ((firstSearch prescriptionPatterns pre).map trimL).getD []

/-- `_extract_test_info_from_row(row_text)` — returns both identifiers as
    (possibly empty) strings. -/
def extractTestInfoFromRowL (rowText : List Char) : List Char × List Char :=
  if rowText.isEmpty then ([], []) else
  let pre := rowTextPreL rowText
  (testNumberOf pre, prescriptionOf pre)

def extractTestInfoFromRow (rowText : String) : String × String :=
  let p := extractTestInfoFromRowL rowText.data
  (String.mk p.1, String.mk p.2)

/-! ### backend.py `DataCleaner.extract_numbers` (the generic-backend extractor;
    returns `Optional[str]` components — `none` models Python `None`). -/

/-- preprocessing of `extract_numbers`: uppercase, `!` → `I`, `-\s+` → `-`,
    `\s+` → ` ` (no `|` correction and no dash collapsing, unlike the
    preservation backend) -/
def bulkNamePreL (s : List Char) : List Char :=
  collapseSpaceL (subDashSpaceL (replaceCh '!' 'I' (upperL s)))

/-- the 6 prescription patterns of backend.py, in source order (between `\b`) -/
def bkPrescriptionPatterns : List Re :=
  [Re.cat [Re.rng 2 4 reU, Re.rng 4 5 reDigit, Re.opt reU, Re.lit '-', Re.rng 1 5 reU, Re.opt reDigit],
   Re.cat [Re.exactly 3 reU, Re.exactly 5 reDigit, Re.lit '-', Re.rng 2 4 reU],
   Re.cat [Re.rng 2 4 reU, Re.rng 3 6 reDigit, Re.lit '-', Re.rng 1 5 reU],
   Re.cat [Re.rng 2 5 reU, Re.exactly 4 reDigit, Re.lit '-', Re.rng 1 3 reU, Re.rng 0 2 reDigit],
   Re.cat [Re.rng 2 4 reU, Re.rng 4 5 reDigit, Re.opt reU, Re.lit '-', .star reSpace, Re.rng 1 5 reU, Re.opt reDigit],
   Re.cat [Re.rng 2 4 reU, Re.rng 3 5 reDigit, Re.lit '-', Re.rng 1 4 reU, Re.rng 1 2 reDigit]]

def isAL (c : Char) : Bool := 'A' ≤ c && c ≤ 'L'

/-- `\b\d{2}[A-L]\d{2}I\d{2,3}\b` -/
def bkTestCorrect : Re := Re.cat
  [Re.exactly 2 reDigit, .cls isAL, Re.exactly 2 reDigit, Re.lit 'I', Re.rng 2 3 reDigit]

/-- `\b\d{2}[A-L]\d{2}1\d{2,3}\b` -/
def bkTestOcr1 : Re := Re.cat
  [Re.exactly 2 reDigit, .cls isAL, Re.exactly 2 reDigit, Re.lit '1', Re.rng 2 3 reDigit]

/-- `\b\d{2}[A-L]\d{5,6}\b` -/
def bkTestOcr2 : Re := Re.cat
  [Re.exactly 2 reDigit, .cls isAL, Re.rng 5 6 reDigit]

/-- the length-conditioned I-insertion of `extract_numbers`
    (`match[:5] + 'I' + match[6:]`) -/
def bkInsertI (m : List Char) : List Char := m.take 5 ++ 'I' :: m.drop 6

/-- the raw whitespace-split pattern `(\d{2})([A-L])(\d)\s+(\d)(\d{2,3})`
    matched at the head of the input; returns the converted identifier and
    the remainder after the match -/
def bkRawSpaceAt (s : List Char) : Option (List Char × List Char) :=
  match s with
  | a :: b :: l :: d1 :: rest =>
    if isPyDigit a && isPyDigit b && isAL l && isPyDigit d1 then
      if (rest.takeWhile isPySpace).isEmpty then none else
      match rest.dropWhile isPySpace with
      | d2 :: rest2 =>
        if isPyDigit d2 then
          let ds := rest2.takeWhile isPyDigit
          if ds.length < 2 then none
          else some ([a, b, l, d1, d2, 'I'] ++ ds.take 2, rest2.drop (min ds.length 3))
        else none
      | [] => none
    else none
  | _ => none

/-- `re.findall` of the raw whitespace-split pattern, already converted -/
def bkRawSpaceAll (fuel : Nat) (s : List Char) : List (List Char) :=
  match fuel with
  | 0 => []
  | fuel + 1 =>
    match s with
    | [] => []
    | c :: rest =>
      match bkRawSpaceAt (c :: rest) with
      | some (conv, rem) => conv :: bkRawSpaceAll fuel rem
      | none => bkRawSpaceAll fuel rest

/-- `DataCleaner.extract_numbers(bulk_name)` from backend.py. -/
def extract_numbers (bulkName : String) : Option String × Option String :=
  let pre := bulkNamePreL bulkName.data
  let prescMatches := dedupL
    (bkPrescriptionPatterns.flatMap (fun r => reFindAllTop r bdPre bdPost pre))
  let correctMatches := reFindAllTop bkTestCorrect bdPre bdPost pre
  let ocrMatches := (reFindAllTop bkTestOcr1 bdPre bdPost pre ++
      reFindAllTop bkTestOcr2 bdPre bdPost pre).filterMap
    (fun m => if m.length = 7 || m.length = 8 then some (bkInsertI m) else none)
  let rawMatches := bkRawSpaceAll (pre.length + 1) pre
  let testMatches := dedupL (correctMatches ++ ocrMatches ++ rawMatches)
  ((testMatches.head?).map String.mk, (prescMatches.head?).map String.mk)

/-! ### The cell matrix.

`table_matrix` is a Python dict of dicts built from the OCR cells; both
levels preserve insertion order, so the model is an association list.
`len(table_matrix)` is the number of stored rows (NOT the largest row
index plus one) — this is modelled faithfully by `m.length`. -/

abbrev CellRow := List (Nat × String)

abbrev CellMatrix := List (Nat × CellRow)

def lookupRow (m : CellMatrix) (i : Nat) : Option CellRow :=
  (m.find? (fun p => p.1 = i)).map (fun p => p.2)

/-- Python `col in row_data` -/
def rowHas (row : CellRow) (c : Nat) : Bool := row.any (fun p => p.1 = c)

/-- Python `row_data.get(c, '')` -/
def rowGet (row : CellRow) (c : Nat) : String :=
  (((row.find? (fun p => p.1 = c))).map (fun p => p.2)).getD ""

/-- Python `row_data.get(column_map.get(key, -1), '')`: a missing column-map
    entry maps to the never-present key `-1`, hence `""` -/
def rowGetOpt (row : CellRow) (c : Option Nat) : String :=
  match c with
  | none => ""
  | some c => rowGet row c

def sortNatsInsert (i : Nat) : List Nat → List Nat
  | [] => [i]
  | x :: xs => if i ≤ x then i :: x :: xs else x :: sortNatsInsert i xs

/-- Python `sorted(keys)` -/
def sortNats : List Nat → List Nat
  | [] => []
  | x :: xs => sortNatsInsert x (sortNats xs)

/-! ### Table Structure Resolver (`_find_header_row`, `_identify_columns`) -/

def headerKeywords : List String := ["CHALLENGED ORGANISM", "BULK NAME", "SPECIFICATION"]

def strainKeywords : List String :=
  ["E.COLI", "ESCHERICHIA", "P.AERUGINOSA", "PSEUDOMONAS",
   "S.AUREUS", "STAPHYLOCOCCUS", "C.ALBICANS", "CANDIDA",
   "A.BRASILIENSIS", "ASPERGILLUS", "균주", "STRAIN"]

/-- Python `' '.join(str(v) for v in table_matrix[row_idx].values()).upper()` -/
def rowTextUpper (row : CellRow) : List Char :=
  upperL (joinSpace (row.map (fun p => p.2.data)))

/-- priority 1 of `_find_header_row`: a row among the first `min(5, len)`
    whose joined text contains a structural header keyword -/
def headerKeywordRow (m : CellMatrix) : Option Nat :=
  (List.range (min 5 m.length)).find? (fun i =>
    match lookupRow m i with
    | none => false
    | some row => headerKeywords.any (fun k => containsSubL k.data (rowTextUpper row)))

/-- priority 2 candidates: rows among the first `min(15, len)` whose joined
    text contains a strain-name keyword -/
def candidateRows (m : CellMatrix) : List Nat :=
  (List.range (min 15 m.length)).filter (fun i =>
    match lookupRow m i with
    | none => false
    | some row => strainKeywords.any (fun k => containsSubL k.data (rowTextUpper row)))

/-- the CFU-value shape used to tell a data row from a header row:
    `\d+\.?\d*\s*[×xX]\s*10[\^]?\d+` -/
def reCfuSci : Re := Re.cat
  [Re.plus reDigit, Re.opt (Re.lit '.'), .star reDigit, .star reSpace,
   .cls (fun c => c = '×' || c = 'x' || c = 'X'), .star reSpace,
   Re.lit '1', Re.lit '0', Re.opt (Re.lit '^'), Re.plus reDigit]

/-- a bare 4-or-more-digit number: `^\d{4,}$` -/
def reDigits4 : Re := Re.cat [reDigit, reDigit, reDigit, Re.plus reDigit]

def cfuShapedCell (v : String) : Bool :=
  let s := trimL v.data
  (reSearch reCfuSci noPre noPost s).isSome || reFull reDigits4 s

def rowHasCfuPattern (row : CellRow) : Bool := row.any (fun p => cfuShapedCell p.2)

/-- `_find_header_row`: `some r` = header at row `r`, `some (-1)` = data rows
    with no header (data begins at row 0), `none` = nothing found. -/
def findHeaderRow (m : CellMatrix) : Option Int :=
  match headerKeywordRow m with
  | some r => some (Int.ofNat r)
  | none =>
    match candidateRows m with
    | [] => none
    | r :: _ =>
      match lookupRow m r with
      | none => none -- unreachable: candidates are built from present rows
      | some row =>
        if rowHasCfuPattern row then some (-1) else some (Int.ofNat r)

structure ColumnMap where
  strain_col : Option Nat := none
  specification_col : Option Nat := none
  cfu_0_col : Option Nat := none
  cfu_7_col : Option Nat := none
  cfu_14_col : Option Nat := none
  cfu_28_col : Option Nat := none
  judgment_col : Option Nat := none
  final_judgment_col : Option Nat := none
deriving Repr, DecidableEq

/-- one header cell scanned by `_identify_columns` -/
def scanHeaderCell (cm : ColumnMap) (colIdx : Nat) (value : String) : ColumnMap :=
  let v := value.data
  let vu := trimL (upperL v)
  let cm :=
    if containsSubL "균주".data v || containsSubL "STRAIN".data vu ||
       containsSubL "E.COLI".data vu || containsSubL "ORGANISM".data vu
    then { cm with strain_col := some colIdx } else cm
  let cm :=
    if containsSubL "SPECIFICATION".data vu || containsSubL "SPEC".data vu
    then { cm with specification_col := some colIdx } else cm
  let dayish := containsSubL "일".data v || containsSubL "DAY".data vu || containsSubL "CFU".data vu
  let cm :=
    if containsSubL "0".data v && (dayish || containsSubL "접종".data v)
    then { cm with cfu_0_col := some colIdx }
    else if containsSubL "7".data v && dayish then { cm with cfu_7_col := some colIdx }
    else if containsSubL "14".data v && dayish then { cm with cfu_14_col := some colIdx }
    else if containsSubL "28".data v && dayish then { cm with cfu_28_col := some colIdx }
    else cm
  if containsSubL "판정".data v || containsSubL "JUDGMENT".data vu then
    if containsSubL "최종".data v || containsSubL "FINAL".data vu
    then { cm with final_judgment_col := some colIdx }
    else if cm.judgment_col.isNone then { cm with judgment_col := some colIdx }
    else cm
  else cm

/-- the Specification value shape `^(≤[0-9]+[°cC]?|[0-9]{1,2}[°cC]?|SI)$` -/
def reSpecVal : Re :=
  .alt (Re.cat [Re.lit '≤', Re.plus reDigit,
                Re.opt (.cls (fun c => c = '°' || c = 'c' || c = 'C'))])
  (.alt (Re.cat [Re.rng 1 2 reDigit,
                 Re.opt (.cls (fun c => c = '°' || c = 'c' || c = 'C'))])
        (Re.litStr "SI".data))

/-- the sampling loop inferring a Specification column when no header named
    one: count spec-shaped values of column `nextCol` over at most 5 rows
    located after the header row -/
def specCountLoop (m : CellMatrix) (nextCol : Nat) :
    List Nat → Nat → Nat → Nat
  | [], cnt, _ => cnt
  | i :: is, cnt, checked =>
    if 5 ≤ checked then cnt else
    match lookupRow m i with
    | none => specCountLoop m nextCol is cnt checked -- unreachable: keys of m
    | some row =>
      if rowHas row nextCol then
        let v := trimL (rowGet row nextCol).data
        specCountLoop m nextCol is (if reFull reSpecVal v then cnt + 1 else cnt) (checked + 1)
      else specCountLoop m nextCol is cnt checked

def specCount (m : CellMatrix) (headerRow nextCol : Nat) : Nat :=
  specCountLoop m nextCol
    ((sortNats (m.map (fun p => p.1))).filter (fun i => ¬ i ≤ headerRow)) 0 0

/-- `_identify_columns(table_matrix, header_row)` -/
def identifyColumns (m : CellMatrix) (headerRow : Nat) : ColumnMap :=
  match lookupRow m headerRow with
  | none => {}
  | some headerData =>
    let cm := headerData.foldl (fun cm p => scanHeaderCell cm p.1 p.2) {}
    match cm.strain_col with
    | none => cm
    | some strainCol =>
      let specCol : Int :=
        match cm.specification_col with
        | some s => Int.ofNat s
        | none =>
          if 3 ≤ specCount m headerRow (strainCol + 1) then Int.ofNat (strainCol + 1) else -1
      let cm :=
        match cm.specification_col with
        | some _ => cm
        | none => if 0 ≤ specCol then { cm with specification_col := some specCol.toNat } else cm
      let cfuStart := if Int.ofNat strainCol < specCol then specCol.toNat + 1 else strainCol + 1
      let cm := if cm.cfu_0_col.isNone then { cm with cfu_0_col := some cfuStart } else cm
      let cm := if cm.cfu_7_col.isNone then { cm with cfu_7_col := some (cfuStart + 1) } else cm
      let cm := if cm.cfu_14_col.isNone then { cm with cfu_14_col := some (cfuStart + 2) } else cm
      let cm := if cm.cfu_28_col.isNone then { cm with cfu_28_col := some (cfuStart + 3) } else cm
      let cm := if cm.judgment_col.isNone then { cm with judgment_col := some (cfuStart + 4) } else cm
      if cm.final_judgment_col.isNone then { cm with final_judgment_col := some (cfuStart + 5) } else cm

/-! ### Record Assembler (`_normalize_strain_name`, `_extract_judgment`,
    `_extract_strain_data`) -/

def strainMapping : List (String × String) :=
  [("E.coli", "E.coli"), ("Escherichia coli", "E.coli"),
   ("E. coli", "E.coli"), ("Escherichia", "E.coli"),
   ("P.aeruginosa", "P.aeruginosa"), ("Pseudomonas aeruginosa", "P.aeruginosa"),
   ("P. aeruginosa", "P.aeruginosa"), ("Pseudomonas", "P.aeruginosa"),
   ("S.aureus", "S.aureus"), ("Staphylococcus aureus", "S.aureus"),
   ("S. aureus", "S.aureus"), ("Staphylococcus", "S.aureus"),
   ("C.albicans", "C.albicans"), ("Candida albicans", "C.albicans"),
   ("C. albicans", "C.albicans"), ("Candida", "C.albicans"),
   ("A.brasiliensis", "A.brasiliensis"), ("Aspergillus brasiliensis", "A.brasiliensis"),
   ("A. brasiliensis", "A.brasiliensis"), ("Aspergillus", "A.brasiliensis")]

/-- `_normalize_strain_name`: first mapping entry whose key occurs
    (case-insensitively) inside the cell text wins; otherwise `""`. -/
def normalizeStrainName (strain : String) : String :=
  match strainMapping.find? (fun p => containsSubL (lowerL p.1.data) (lowerL strain.data)) with
  | some p => p.2
  | none => ""

/-- `_extract_judgment` -/
def extractJudgment (value : String) : String :=
  if value.data.isEmpty then "적합" else
  let v := upperL (trimL value.data)
  if containsSubL "X".data v || containsSubL "×".data v ||
     containsSubL "V".data v || containsSubL "부적합".data v
  then "부적합" else "적합"

structure TestRecord where
  test_number : String
  prescription_number : String
  strain : String
  cfu_0day : String
  cfu_7day : String
  cfu_14day : String
  cfu_28day : String
  judgment : String
  final_judgment : String
deriving Repr, DecidableEq

/-- the bulk-name stage of the `_extract_strain_data` row loop: when column 0
    holds non-empty text, run the Identifier Extractor on it; each non-empty
    extracted field replaces the corresponding field of the identifier
    context, a non-match leaves that field unchanged -/
def updateCtx (ctx : String × String) (rowData : CellRow) : String × String :=
  let bulkName := trimL (rowGet rowData 0).data
  if bulkName.isEmpty then ctx
  else
    let tp := extractTestInfoFromRowL bulkName
    let ctx := if tp.1.isEmpty then ctx else (String.mk tp.1, ctx.2)
    if tp.2.isEmpty then ctx else (ctx.1, String.mk tp.2)

/-- `strain_normalized` of the row loop -/
def strainNormOf (rowData : CellRow) (strainCol : Nat) : String :=
  normalizeStrainName (String.mk (trimL (rowGet rowData strainCol).data))

/-- `final_judgment` of the row loop -/
def finalJudgmentOf (cm : ColumnMap) (rowData : CellRow) : String :=
  match cm.final_judgment_col with
  | none => ""
  | some fc =>
    if rowGet rowData fc = "" then "" else extractJudgment (rowGet rowData fc)

/-- the emission stage of the `_extract_strain_data` row loop: a record is
    produced when the strain cell resolves to a canonical strain; its
    identifier fields are the current context -/
def emitRecord (cm : ColumnMap) (ctx : String × String) (rowData : CellRow) :
    Option TestRecord :=
  match cm.strain_col with
  | none => none
  | some strainCol =>
    if ¬ rowHas rowData strainCol then none else
    if strainNormOf rowData strainCol = "" then none else
    some
      { test_number := ctx.1
        prescription_number := ctx.2
        strain := strainNormOf rowData strainCol
        cfu_0day := cleanCfuValue (rowGetOpt rowData cm.cfu_0_col) (strainNormOf rowData strainCol) "0일"
        cfu_7day := cleanCfuValue (rowGetOpt rowData cm.cfu_7_col) (strainNormOf rowData strainCol) "7일"
        cfu_14day := cleanCfuValue (rowGetOpt rowData cm.cfu_14_col) (strainNormOf rowData strainCol) "14일"
        cfu_28day := cleanCfuValue (rowGetOpt rowData cm.cfu_28_col) (strainNormOf rowData strainCol) "28일"
        judgment := extractJudgment (rowGetOpt rowData cm.judgment_col)
        final_judgment := finalJudgmentOf cm rowData }

/-- the per-row body of the `_extract_strain_data` loop: update the identifier
    context from the bulk-name cell (column 0), then emit a record when the
    strain cell resolves to a canonical strain -/
def processRow (cm : ColumnMap) (ctx : String × String) (rowData : CellRow) :
    (String × String) × Option TestRecord :=
  let ctx2 := updateCtx ctx rowData
  (ctx2, emitRecord cm ctx2 rowData)

/-- the row loop of `_extract_strain_data`, threading the identifier context -/
def assembleRows (cm : ColumnMap) : (String × String) → List CellRow → List TestRecord
  | _, [] => []
  | ctx, r :: rs =>
    let step := processRow cm ctx r
    step.2.toList ++ assembleRows cm step.1 rs

def strainOrderList : List (String × Nat) :=
  [("E.coli", 0), ("P.aeruginosa", 1), ("S.aureus", 2),
   ("C.albicans", 3), ("A.brasiliensis", 4)]

/-- `strain_order.get(strain, 999)` -/
def strainKey (s : String) : Nat :=
  ((strainOrderList.find? (fun p => p.1 = s)).map (fun p => p.2)).getD 999

/-- stable insertion (list.sort in Python is stable) -/
def insertByStrain (r : TestRecord) : List TestRecord → List TestRecord
  | [] => [r]
  | x :: xs =>
    if strainKey x.strain < strainKey r.strain then x :: insertByStrain r xs
    else r :: x :: xs

/-- `test_group.sort(key=lambda x: strain_order.get(x['strain'], 999))` -/
def sortByStrain : List TestRecord → List TestRecord
  | [] => []
  | x :: xs => insertByStrain x (sortByStrain xs)

/-- the grouping loop at the end of `_extract_strain_data`: close the current
    group whenever the test number changes, sort it by canonical strain
    order, and append -/
def sortLoop : Option String → List TestRecord → List TestRecord → List TestRecord →
    List TestRecord
  | _, group, acc, [] => acc ++ (if group.isEmpty then [] else sortByStrain group)
  | cur, group, acc, d :: ds =>
    if cur = some d.test_number then sortLoop cur (group ++ [d]) acc ds
    else sortLoop (some d.test_number) [d]
      (acc ++ (if group.isEmpty then [] else sortByStrain group)) ds

def sortGroupedData (testData : List TestRecord) : List TestRecord :=
  sortLoop none [] [] testData

/-- `_extract_strain_data(table_matrix)` (the `date_info` argument is unused
    by the source function and omitted).  Note the row loop runs over
    `range(data_start_row, len(table_matrix))`. -/
def extractStrainData (m : CellMatrix) : List TestRecord :=
  match findHeaderRow m with
  | none => []
  | some h =>
    let cmHeaderRow : Nat := if h = -1 then 0 else h.toNat
    let dataStartRow : Nat := if h = -1 then 0 else h.toNat + 1
    let cm := identifyColumns m cmHeaderRow
    let rows := ((List.range m.length).drop dataStartRow).filterMap (lookupRow m)
    sortGroupedData (assembleRows cm ("", "") rows)

/-! ### Date-Block Extractor (`_extract_date_info`) -/

/-- `re.sub(r'^(\d)\.(\d)\s+(\d{1,2})$', r'\1\2 \3', v)` — the
    decimal-point-as-space OCR correction -/
def subDateCorr (v : List Char) : List Char :=
  match v with
  | a :: '.' :: b :: rest =>
    if isPyDigit a && isPyDigit b then
      let sp := rest.takeWhile isPySpace
      let ds := rest.dropWhile isPySpace
      if !sp.isEmpty && (ds.length = 1 || ds.length = 2) && ds.all isPyDigit then
        a :: b :: ' ' :: ds
      else v
    else v
  | _ => v

/-- `^(\d{1,2})[/\-.](\d{1,2})$` -/
def dateSlashMatch (v : List Char) : Option (List Char × List Char) :=
  let d1 := v.takeWhile isPyDigit
  if d1.length = 0 || 2 < d1.length then none else
  match v.drop d1.length with
  | sep :: rest =>
    if sep = '/' || sep = '-' || sep = '.' then
      if rest.length ≠ 0 && rest.length ≤ 2 && rest.all isPyDigit then some (d1, rest)
      else none
    else none
  | [] => none

/-- `^(\d{1,2})\s+(\d{1,2})$` -/
def dateSpaceMatch (v : List Char) : Option (List Char × List Char) :=
  let d1 := v.takeWhile isPyDigit
  if d1.length = 0 || 2 < d1.length then none else
  let rest := v.drop d1.length
  let sp := rest.takeWhile isPySpace
  let ds := rest.dropWhile isPySpace
  if !sp.isEmpty && ds.length ≠ 0 && ds.length ≤ 2 && ds.all isPyDigit then some (d1, ds)
  else none

/-- the date-like cells of one row, in ascending column order -/
def rowDates (row : CellRow) : List (List Char × List Char) :=
  (sortNats (row.map (fun p => p.1))).filterMap (fun c =>
    let v := subDateCorr (trimL (rowGet row c).data)
    match dateSlashMatch v with
    | some p => some p
    | none => dateSpaceMatch v)

/-- pass 1: the first row among the first `min(5, len)` holding at least 4
    date-like cells -/
def findFourDates (m : CellMatrix) : Option (List (List Char × List Char)) :=
  (((List.range (min 5 m.length)).filterMap (lookupRow m)).map rowDates).find?
    (fun ds => 4 ≤ ds.length)

def zfill2 (s : List Char) : List Char := if s.length = 1 then '0' :: s else s

def fourDateBlock (ds : List (List Char × List Char)) : List (String × String) :=
  match ds with
  | a :: b :: c :: d :: _ =>
    [("date_0", String.mk (zfill2 a.1 ++ '/' :: zfill2 a.2)),
     ("date_7", String.mk (zfill2 b.1 ++ '/' :: zfill2 b.2)),
     ("date_14", String.mk (zfill2 c.1 ++ '/' :: zfill2 c.2)),
     ("date_28", String.mk (zfill2 d.1 ++ '/' :: zfill2 d.2))]
  | _ => []

def toNatL (s : List Char) : Nat := s.foldl (fun n c => n * 10 + (c.toNat - 48)) 0

def leapYear (y : Nat) : Bool := (y % 4 = 0 && y % 100 ≠ 0) || y % 400 = 0

def daysInMonth (y mo : Nat) : Nat :=
  if mo = 2 then (if leapYear y then 29 else 28)
  else if mo = 4 || mo = 6 || mo = 9 || mo = 11 then 30 else 31

/-- validity check performed by the `datetime(2024, month, day)` constructor
    (an invalid date raises and the cell is skipped) -/
def validDate (y mo d : Nat) : Bool :=
  1 ≤ mo && mo ≤ 12 && 1 ≤ d && d ≤ daysInMonth y mo

def nextDay : Nat × Nat × Nat → Nat × Nat × Nat
  | (y, mo, d) =>
    if d < daysInMonth y mo then (y, mo, d + 1)
    else if mo < 12 then (y, mo + 1, 1)
    else (y + 1, 1, 1)

/-- `start_date + timedelta(days=n)` -/
def addDays : Nat → Nat × Nat × Nat → Nat × Nat × Nat
  | 0, x => x
  | n + 1, x => addDays n (nextDay x)

/-- `strftime("%m/%d")` -/
def fmtMMDD (x : Nat × Nat × Nat) : List Char :=
  zfill2 (toString x.2.1).data ++ '/' :: zfill2 (toString x.2.2).data

/-- pass 2, per cell: a single date-like token, validated by the `datetime`
    constructor (pattern 1 tried first; on an exception the cell is skipped) -/
def cellSingleDate (v0 : String) : Option (Nat × Nat) :=
  let v := subDateCorr (trimL v0.data)
  match dateSlashMatch v with
  | some p =>
    if validDate 2024 (toNatL p.1) (toNatL p.2) then some (toNatL p.1, toNatL p.2) else none
  | none =>
    match dateSpaceMatch v with
    | some p =>
      if validDate 2024 (toNatL p.1) (toNatL p.2) then some (toNatL p.1, toNatL p.2) else none
    | none => none

/-- pass 2: the first single date-like cell among the first `min(5, len)` rows
    (cells in insertion order, as `row_data.items()` iterates) -/
def findSingleDate (m : CellMatrix) : Option (Nat × Nat) :=
  ((List.range (min 5 m.length)).filterMap (lookupRow m)).findSome?
    (fun row => row.findSome? (fun p => cellSingleDate p.2))

/-- the four derived dates of the single-date fallback -/
def dateBlockOf (mo d : Nat) : List (String × String) :=
  [("date_0", String.mk (fmtMMDD (2024, mo, d))),
   ("date_7", String.mk (fmtMMDD (addDays 7 (2024, mo, d)))),
   ("date_14", String.mk (fmtMMDD (addDays 14 (2024, mo, d)))),
   ("date_28", String.mk (fmtMMDD (addDays 28 (2024, mo, d))))]

/-- `_extract_date_info(table_matrix)` -/
def extractDateInfo (m : CellMatrix) : List (String × String) :=
  match findFourDates m with
  | some ds => fourDateBlock ds
  | none =>
    match findSingleDate m with
    | some p => dateBlockOf p.1 p.2
    | none => []

/-! ### Claim-side definitions: the run decomposition of the post-pass
    reordering, the context accumulator, and concrete fixtures -/

/-- the maximal consecutive runs of equal test-number value of a record list
    (stated from the spec's description of the post-pass reordering) -/
def runsByTest : List TestRecord → List (List TestRecord)
  | [] => []
  | r :: rs =>
    match runsByTest rs with
    | [] => [[r]]
    | g :: gs =>
      if g.head?.map (fun x => x.test_number) = some r.test_number then (r :: g) :: gs
      else [r] :: g :: gs

/-- the runs of `g ++ l` when every element of `g` belongs to the run of test
    number `t` that is still open on the left of `l` -/
def runsFrom (t : String) (g : List TestRecord) (l : List TestRecord) :
    List (List TestRecord) :=
  match runsByTest l with
  | [] => [g]
  | g2 :: gs =>
    if g2.head?.map (fun x => x.test_number) = some t then (g ++ g2) :: gs
    else g :: g2 :: gs

/-- the identifier context in effect after processing a list of rows -/
def ctxAfter (cm : ColumnMap) (ctx : String × String) (rows : List CellRow) :
    String × String :=
  rows.foldl (fun c row => (processRow cm c row).1) ctx

/-- a fixture list of normalizer inputs — misread tokens, detection-limit
    literals, ellipses, the empty string and plain text samples — on which
    normalization is proved idempotent (idempotence does not extend to all
    inputs, see the C1 counterexample) -/
def idempotenceFixtures : List String :=
  ["CIO", "<10", "< 10", "40", "40°", "40€", "410", "90", "110", "210", "510",
   "1", "2", "103", "00", "<102", "< 10 2", "<12", "512", "(10", "(1)", "LU",
   "/10", "2 <10", "...", "....", "…", "", "abc", "CCO", "zion", "Lio", "610"]

/-- the §8 Record Assembler example: one bulk-name row followed by the five
    strain rows in a scrambled order, with arbitrary CFU text -/
def exampleMatrix : CellMatrix :=
  [(0, [(0, "Bulk Name"), (1, "Challenged Organism"), (2, "0 Day"), (3, "7 Day"),
        (4, "14 Day"), (5, "28 Day"), (6, "Judgment")]),
   (1, []),
   (2, [(0, "25E15I14 GB1919-ZMB")]),
   (3, [(1, "S.aureus"), (2, "8.8x105"), (3, "CIO")]),
   (4, [(1, "E.coli"), (2, "2.1 × 106"), (3, "40"), (4, "110"), (6, "X")]),
   (5, [(1, "A.brasiliensis")]),
   (6, [(1, "C.albicans"), (5, "...")]),
   (7, [(1, "P.aeruginosa"), (2, "7.0X102 1.0 ×103")])]

def exampleRecords : List TestRecord :=
  [{ test_number := "25E15I14", prescription_number := "GB1919-ZMB", strain := "E.coli",
     cfu_0day := "2.1×10^6", cfu_7day := "<10^2", cfu_14day := "<10", cfu_28day := "",
     judgment := "부적합", final_judgment := "" },
   { test_number := "25E15I14", prescription_number := "GB1919-ZMB", strain := "P.aeruginosa",
     cfu_0day := "7.0×10^2", cfu_7day := "", cfu_14day := "", cfu_28day := "",
     judgment := "적합", final_judgment := "" },
   { test_number := "25E15I14", prescription_number := "GB1919-ZMB", strain := "S.aureus",
     cfu_0day := "8.8×10^5", cfu_7day := "<10^2", cfu_14day := "", cfu_28day := "",
     judgment := "적합", final_judgment := "" },
   { test_number := "25E15I14", prescription_number := "GB1919-ZMB", strain := "C.albicans",
     cfu_0day := "", cfu_7day := "", cfu_14day := "", cfu_28day := "",
     judgment := "적합", final_judgment := "" },
   { test_number := "25E15I14", prescription_number := "GB1919-ZMB", strain := "A.brasiliensis",
     cfu_0day := "", cfu_7day := "", cfu_14day := "", cfu_28day := "",
     judgment := "적합", final_judgment := "" }]

/-- a sparse matrix whose row indices (0 and 2) are not contiguous: the strain
    row at index 2 lies at or beyond `len(table_matrix) = 2` -/
def sparseStrainMatrix : CellMatrix :=
  [(0, [(0, "E.coli"), (1, "1.2×10^5")]), (2, [(0, "S.aureus")])]

/-- a header-less matrix whose row 0 carries a scientific-notation value -/
def noHeaderMatrix : CellMatrix := [(0, [(0, "E.coli"), (1, "1.2×10^5")])]

/-- a matrix holding a single date-like cell and no 4-token row -/
def singleDateMatrix : CellMatrix := [(0, [(0, "03/01")])]

def c3WitnessCm : ColumnMap := { strain_col := some 1 }

def c3WitnessRows : List CellRow := [[(0, "25E15I14 GB1919-ZMB")], [(1, "E.coli")]]

def c3WitnessRec : TestRecord :=
  { test_number := "25E15I14", prescription_number := "GB1919-ZMB", strain := "E.coli",
    cfu_0day := "", cfu_7day := "", cfu_14day := "", cfu_28day := "",
    judgment := "적합", final_judgment := "" }

/-- all ways to insert an element into a list -/
def insEverywhere {α : Type} (x : α) : List α → List (List α)
  | [] => [[x]]
  | y :: ys => (x :: y :: ys) :: (insEverywhere x ys).map (fun l => y :: l)

/-- all permutations of a list -/
def permsOf {α : Type} : List α → List (List α)
  | [] => [[]]
  | x :: xs => (permsOf xs).flatMap (insEverywhere x)

/-! ### Helper lemmas -/

theorem updateCtx_of_empty (ctx : String × String) (rowData : CellRow)
    (h : (trimL (rowGet rowData 0).data).isEmpty = true) :
    updateCtx ctx rowData = ctx := by
  simp [updateCtx, h]

theorem updateCtx_of_nonempty (ctx : String × String) (rowData : CellRow)
    (h : (trimL (rowGet rowData 0).data).isEmpty = false) :
    updateCtx ctx rowData =
      ((if (extractTestInfoFromRowL (trimL (rowGet rowData 0).data)).1.isEmpty then ctx.1
        else String.mk (extractTestInfoFromRowL (trimL (rowGet rowData 0).data)).1),
       (if (extractTestInfoFromRowL (trimL (rowGet rowData 0).data)).2.isEmpty then ctx.2
        else String.mk (extractTestInfoFromRowL (trimL (rowGet rowData 0).data)).2)) := by
  simp only [updateCtx, h, Bool.false_eq_true, if_false]
  by_cases h1 : (extractTestInfoFromRowL (trimL (rowGet rowData 0).data)).1.isEmpty <;>
    by_cases h2 : (extractTestInfoFromRowL (trimL (rowGet rowData 0).data)).2.isEmpty <;>
    simp [h1, h2]

theorem emitRecord_ctx_fields (cm : ColumnMap) (ctx : String × String)
    (rowData : CellRow) (rec : TestRecord)
    (h : emitRecord cm ctx rowData = some rec) :
    rec.test_number = ctx.1 ∧ rec.prescription_number = ctx.2 := by
  unfold emitRecord at h
  repeat' split at h
  all_goals try exact Option.noConfusion h
  all_goals (cases h; exact ⟨rfl, rfl⟩)

theorem assembleRows_mem_spec :
    ∀ (cm : ColumnMap) (ctx : String × String) (rows : List CellRow) (r : TestRecord),
      r ∈ assembleRows cm ctx rows →
      ∃ k rowData, rows[k]? = some rowData ∧
        (processRow cm (ctxAfter cm ctx (rows.take k)) rowData).2 = some r ∧
        r.test_number = (ctxAfter cm ctx (rows.take (k + 1))).1 ∧
        r.prescription_number = (ctxAfter cm ctx (rows.take (k + 1))).2 := by
  intro cm ctx rows
  induction rows generalizing ctx with
  | nil => intro r hr; simp [assembleRows] at hr
  | cons row rs ih =>
    intro r hr
    rw [assembleRows] at hr
    rcases List.mem_append.mp hr with h1 | h2
    · have hsome : (processRow cm ctx row).2 = some r := by
        cases hp : (processRow cm ctx row).2 with
        | none => rw [hp] at h1; simp [Option.toList] at h1
        | some x =>
          rw [hp] at h1
          simp [Option.toList] at h1
          subst h1
          rfl
      refine ⟨0, row, by simp, ?_, ?_, ?_⟩
      · simpa [ctxAfter] using hsome
      · have hf := emitRecord_ctx_fields cm (updateCtx ctx row) row r hsome
        simpa [ctxAfter, processRow] using hf.1
      · have hf := emitRecord_ctx_fields cm (updateCtx ctx row) row r hsome
        simpa [ctxAfter, processRow] using hf.2
    · obtain ⟨k, rowData, hk, hp, ht, hpr⟩ := ih ((processRow cm ctx row).1) r h2
      refine ⟨k + 1, rowData, ?_, ?_, ?_, ?_⟩
      · simpa using hk
      · simpa [ctxAfter] using hp
      · simpa [ctxAfter] using ht
      · simpa [ctxAfter] using hpr

theorem runsByTest_cons (d : TestRecord) (ds : List TestRecord) :
    runsByTest (d :: ds) = runsFrom d.test_number [d] ds := by
  unfold runsByTest runsFrom
  cases runsByTest ds with
  | nil => rfl
  | cons g gs =>
    by_cases hc : g.head?.map (fun x => x.test_number) = some d.test_number <;> simp [hc]

theorem runsByTest_cons_head (d : TestRecord) (ds : List TestRecord) :
    ∃ tl gs, runsByTest (d :: ds) = (d :: tl) :: gs := by
  unfold runsByTest
  cases runsByTest ds with
  | nil => exact ⟨[], [], rfl⟩
  | cons g gs =>
    by_cases hc : g.head?.map (fun x => x.test_number) = some d.test_number
    · exact ⟨g, gs, by simp [hc]⟩
    · exact ⟨[], g :: gs, by simp [hc]⟩

theorem runsFrom_append (t : String) (g : List TestRecord) (d : TestRecord)
    (ds : List TestRecord) (hd : d.test_number = t) :
    runsFrom t g (d :: ds) = runsFrom t (g ++ [d]) ds := by
  unfold runsFrom
  rw [runsByTest_cons]
  unfold runsFrom
  cases h : runsByTest ds with
  | nil => simp [hd]
  | cons g2 gs =>
    by_cases h2 : g2.head?.map (fun x => x.test_number) = some d.test_number
    · rw [hd] at h2
      simp [h2, hd]
    · rw [hd] at h2
      simp [h2, hd]

theorem sortLoop_runsFrom (l : List TestRecord) :
    ∀ (t : String) (g acc : List TestRecord), g ≠ [] →
      sortLoop (some t) g acc l = acc ++ (runsFrom t g l).flatMap sortByStrain := by
  induction l with
  | nil =>
    intro t g acc hg
    have hge : g.isEmpty = false := by simp [List.isEmpty_iff, hg]
    simp [sortLoop, runsFrom, runsByTest, hge]
  | cons d ds ih =>
    intro t g acc hg
    rw [sortLoop]
    by_cases hc : (some t : Option String) = some d.test_number
    · rw [if_pos hc]
      have ht : d.test_number = t := by
        injection hc with h
        exact h.symm
      rw [ih t (g ++ [d]) acc (by simp), runsFrom_append t g d ds ht]
    · rw [if_neg hc]
      have hne : d.test_number ≠ t := by
        intro h
        exact hc (by rw [h])
      have hge : g.isEmpty = false := by simp [List.isEmpty_iff, hg]
      rw [ih d.test_number [d] _ (by simp), ← runsByTest_cons]
      obtain ⟨tl, gs, hsh⟩ := runsByTest_cons_head d ds
      unfold runsFrom
      rw [hsh]
      simp [hge, hne, List.append_assoc]

theorem sortGrouped_eq_runs (l : List TestRecord) :
    sortGroupedData l = (runsByTest l).flatMap sortByStrain := by
  cases l with
  | nil => rfl
  | cons d ds =>
    unfold sortGroupedData
    rw [sortLoop]
    rw [if_neg (by simp)]
    rw [sortLoop_runsFrom ds d.test_number [d] _ (by simp), ← runsByTest_cons]
    simp

/-! ### The claims -/

/-- C1 counterexample: the Value Normalizer is not idempotent on every input.
    In the day-0 column, `"5.5X105"` normalizes to `"5.5×10^5"`, but
    normalizing that result again yields `"5.5×10^0"` (the scientific-notation
    search matches `5.5×10` with an empty exponent group in front of the
    caret, and an empty exponent defaults to `0`). -/
theorem c1_counterexample :
    cleanCfuValue "5.5X105" "E.coli" "0일" = "5.5×10^5" ∧
    cleanCfuValue (cleanCfuValue "5.5X105" "E.coli" "0일") "E.coli" "0일" = "5.5×10^0" ∧
    ("5.5×10^0" : String) ≠ "5.5×10^5" := by
  refine ⟨by decide, by decide, by decide⟩

/-- C1 (amended): the Value Normalizer is not idempotent for every input
    string (see the counterexample); it is idempotent, in every day column,
    on each of the tested fixtures enumerated in `idempotenceFixtures`. -/
theorem c1_idempotent_on_fixtures :
    (idempotenceFixtures.all (fun x => dayColumns.all (fun d =>
      cleanCfuValue (cleanCfuValue x "E.coli" d) "E.coli" d ==
        cleanCfuValue x "E.coli" d))) = true := by
  decide

/-- C2: in the day-7 column, raw `"CIO"` normalizes to `"<10^2"` while the
    exact literal `"<10"` stays `"<10"`; whenever the corrected value is
    exactly `"<10"`, an original that is one of the unambiguous literal
    `"<10"` spellings (with optional space/quote) is kept as `"<10"`, an
    original carrying one of the ambiguous misread tokens is promoted to
    `"<10^2"`, and the rule never fires on a value with an explicit
    exponent (a `^` in the value returns it unchanged). -/
theorem c2_day7_disambiguation :
    (cleanCfuValue "CIO" "E.coli" "7일" = "<10^2" ∧
     cleanCfuValue "<10" "E.coli" "7일" = "<10") ∧
    (∀ v o : List Char, v.contains '^' = true → fix7dayAmbiguousL v o = v) ∧
    ((clearLess10Patterns.all (fun o =>
        fix7dayAmbiguousL "<10".data o.data == "<10".data &&
        fix7dayAmbiguousL "<10".data (o.data.filter (fun c => c ≠ ' ')) == "<10".data)) = true) ∧
    ((ambiguous7Patterns.all (fun o =>
        fix7dayAmbiguousL "<10".data o.data == "<10^2".data &&
        cleanCfuValue o "E.coli" "7일" == "<10^2")) = true) := by
  refine ⟨⟨by decide, by decide⟩, ?_, by decide, by decide⟩
  intro v o h
  unfold fix7dayAmbiguousL
  rw [h]
  simp

theorem c2_witness :
    fix7dayAmbiguousL "<10^2".data "CIO".data = "<10^2".data :=
  c2_day7_disambiguation.2.1 "<10^2".data "CIO".data (by decide)

/-- C3: during assembly the identifier context changes only when the row's
    column-0 bulk-name cell is non-empty; when it is non-empty, each component
    of the context is replaced exactly when the Identifier Extractor returns a
    non-empty value for it (a non-matching field is left unchanged); and every
    emitted record's test-number and prescription-number equal the context in
    effect when its row was processed. -/
theorem c3_identifier_context :
    (∀ (cm : ColumnMap) (ctx : String × String) (rowData : CellRow),
      ((trimL (rowGet rowData 0).data).isEmpty = true →
        (processRow cm ctx rowData).1 = ctx) ∧
      ((trimL (rowGet rowData 0).data).isEmpty = false →
        (processRow cm ctx rowData).1 =
          ((if (extractTestInfoFromRowL (trimL (rowGet rowData 0).data)).1.isEmpty then ctx.1
            else String.mk (extractTestInfoFromRowL (trimL (rowGet rowData 0).data)).1),
           (if (extractTestInfoFromRowL (trimL (rowGet rowData 0).data)).2.isEmpty then ctx.2
            else String.mk (extractTestInfoFromRowL (trimL (rowGet rowData 0).data)).2))) ∧
      (∀ rec, (processRow cm ctx rowData).2 = some rec →
        rec.test_number = (processRow cm ctx rowData).1.1 ∧
        rec.prescription_number = (processRow cm ctx rowData).1.2)) ∧
    (∀ (cm : ColumnMap) (ctx : String × String) (rows : List CellRow) (r : TestRecord),
      r ∈ assembleRows cm ctx rows →
      ∃ k rowData, rows[k]? = some rowData ∧
        (processRow cm (ctxAfter cm ctx (rows.take k)) rowData).2 = some r ∧
        r.test_number = (ctxAfter cm ctx (rows.take (k + 1))).1 ∧
        r.prescription_number = (ctxAfter cm ctx (rows.take (k + 1))).2) := by
  constructor
  · intro cm ctx rowData
    refine ⟨fun h => ?_, fun h => ?_, fun rec h => ?_⟩
    · exact updateCtx_of_empty ctx rowData h
    · exact updateCtx_of_nonempty ctx rowData h
    · exact emitRecord_ctx_fields cm (updateCtx ctx rowData) rowData rec h
  · exact assembleRows_mem_spec

theorem c3_witness :
    ∃ k rowData, c3WitnessRows[k]? = some rowData ∧
      (processRow c3WitnessCm (ctxAfter c3WitnessCm ("", "") (c3WitnessRows.take k)) rowData).2 =
        some c3WitnessRec ∧
      c3WitnessRec.test_number = (ctxAfter c3WitnessCm ("", "") (c3WitnessRows.take (k + 1))).1 ∧
      c3WitnessRec.prescription_number =
        (ctxAfter c3WitnessCm ("", "") (c3WitnessRows.take (k + 1))).2 :=
  c3_identifier_context.2 c3WitnessCm ("", "") c3WitnessRows c3WitnessRec (by decide)

/-- C4: the post-pass reordering equals: split the emitted sequence into
    maximal consecutive runs of equal test-number, stable-sort each run by the
    canonical strain order, and concatenate the runs in encounter order; on
    the §8 example matrix (bulk-name row `"25E15I14 GB1919-ZMB"`, five strain
    rows in scrambled order) it yields exactly 5 records sharing that test and
    prescription number in canonical strain order, and every permutation of
    those five records sorts back to the same canonical sequence
    (`permsOf` enumerates all 120 orderings). -/
theorem c4_post_pass_reordering :
    (∀ l : List TestRecord, sortGroupedData l = (runsByTest l).flatMap sortByStrain) ∧
    extractStrainData exampleMatrix = exampleRecords ∧
    (((permsOf exampleRecords).all (fun p => sortGroupedData p == exampleRecords)) = true) := by
  exact ⟨sortGrouped_eq_runs, by decide, by decide⟩

/-- C5 counterexample: on the raw text `"7.0X102 1.0 ×103"` the merged-cell
    split stage returns its input unchanged — the split pattern requires the
    ×-sign to follow the mantissa without space, so the second value is not
    detected and only one occurrence is counted. -/
theorem c5_counterexample :
    splitMergedCellsL "7.0X102 1.0 ×103".data = "7.0X102 1.0 ×103".data ∧
    splitMergedCellsL "7.0X102 1.0 ×103".data ≠ "7.0×10^2".data := by
  refine ⟨by decide, by decide⟩

/-- C5 (amended): the full Value Normalizer maps `"7.0X102 1.0 ×103"` to
    exactly `"7.0×10^2"` in every day column (the leftmost scientific-notation
    match wins during normalization), while the merged-cell split stage itself
    keeps only the first occurrence on spaceless doubles such as
    `"7.0X102 1.0×103"` and on double detection-limit tokens. -/
theorem c5_merged_cell_first_value :
    ((dayColumns.all (fun d => cleanCfuValue "7.0X102 1.0 ×103" "E.coli" d == "7.0×10^2")) = true) ∧
    splitMergedCellsL "7.0X102 1.0×103".data = "7.0X102".data ∧
    splitMergedCellsL "<10 < 10\"".data = "<10".data := by
  refine ⟨by decide, by decide, by decide⟩

/-- C6: the row loop runs over `range(data_start_row, len(table_matrix))`, and
    `len` of the sparse dict counts stored rows; on a matrix with rows {0, 2}
    the strain row at index 2 is never visited, so only the E.coli record of
    row 0 is emitted even though row 2 holds a recognizable strain row. -/
theorem c6_sparse_row_dropped :
    (extractStrainData sparseStrainMatrix).map (fun r => r.strain) = ["E.coli"] ∧
    lookupRow sparseStrainMatrix 2 = some [(0, "S.aureus")] ∧
    normalizeStrainName "S.aureus" = "S.aureus" ∧
    sparseStrainMatrix.length = 2 := by
  refine ⟨by decide, by decide, by decide, by decide⟩

/-- C7 counterexample: the generic-backend extractor `extract_numbers` returns
    `None` components (not empty strings) when no pattern matches. -/
theorem c7_counterexample :
    extract_numbers "" = (none, none) ∧ (none : Option String) ≠ some "" := by
  refine ⟨by decide, by decide⟩

/-- C7 (amended): the preservation-backend extractor
    `_extract_test_info_from_row` is total and returns a pair of strings whose
    components are the empty string whenever the corresponding pattern scan
    fails (and on empty input); the generic-backend `extract_numbers` is also
    total but resolves a failed component to `None` instead. -/
theorem c7_extractor_totality (s : String) :
    (s.data.isEmpty = false →
      reSearch reTestPat1 bdPre bdPost (rowTextPreL s.data) = none →
      reSearch reTestPat2 bdPre bdPost (rowTextPreL s.data) = none →
      (extractTestInfoFromRow s).1 = "") ∧
    (s.data.isEmpty = false →
      firstSearch prescriptionPatterns (rowTextPreL s.data) = none →
      (extractTestInfoFromRow s).2 = "") ∧
    (s.data.isEmpty = true → extractTestInfoFromRow s = ("", "")) := by
  refine ⟨fun h0 h1 h2 => ?_, fun h0 h1 => ?_, fun h0 => ?_⟩
  · simp [extractTestInfoFromRow, extractTestInfoFromRowL, h0, testNumberOf, h1, h2]
  · simp [extractTestInfoFromRow, extractTestInfoFromRowL, h0, prescriptionOf, h1]
  · simp [extractTestInfoFromRow, extractTestInfoFromRowL, h0]

theorem c7_witness :
    (extractTestInfoFromRow "hello").1 = "" ∧ (extractTestInfoFromRow "hello").2 = "" :=
  ⟨(c7_extractor_totality "hello").1 (by decide) (by decide) (by decide),
   (c7_extractor_totality "hello").2.1 (by decide) (by decide)⟩

/-- C8: when no scanned row yields 4 date tokens and pass 2 finds a single
    date-like cell, the extractor returns that date as day-0 and derives
    day-7/14/28 by adding 7/14/28 calendar days under the fixed reference year
    2024; on the lone cell `"03/01"` this gives 03/01, 03/08, 03/15, 03/29. -/
theorem c8_single_date_fallback :
    (∀ (m : CellMatrix) (mo d : Nat),
      findFourDates m = none → findSingleDate m = some (mo, d) →
      extractDateInfo m =
        [("date_0", String.mk (fmtMMDD (2024, mo, d))),
         ("date_7", String.mk (fmtMMDD (addDays 7 (2024, mo, d)))),
         ("date_14", String.mk (fmtMMDD (addDays 14 (2024, mo, d)))),
         ("date_28", String.mk (fmtMMDD (addDays 28 (2024, mo, d))))]) ∧
    extractDateInfo singleDateMatrix =
      [("date_0", "03/01"), ("date_7", "03/08"), ("date_14", "03/15"), ("date_28", "03/29")] := by
  constructor
  · intro m mo d h1 h2
    unfold extractDateInfo
    rw [h1, h2]
    rfl
  · decide

theorem c8_witness :
    extractDateInfo singleDateMatrix =
      [("date_0", String.mk (fmtMMDD (2024, 3, 1))),
       ("date_7", String.mk (fmtMMDD (addDays 7 (2024, 3, 1)))),
       ("date_14", String.mk (fmtMMDD (addDays 14 (2024, 3, 1)))),
       ("date_28", String.mk (fmtMMDD (addDays 28 (2024, 3, 1))))] :=
  c8_single_date_fallback.1 singleDateMatrix 3 1 (by decide) (by decide)

/-- C9: when the keyword pass finds no header among the first rows and the
    first strain-keyword candidate row contains a cell with CFU-value-shaped
    content (scientific notation or a bare 4+-digit number), the resolver
    signals no-header (`-1`, data begins at row 0) instead of reporting that
    row as a header; in particular on a header-less matrix whose row 0 holds a
    scientific-notation value. -/
theorem c9_no_header_on_cfu_row :
    (∀ (m : CellMatrix) (r : Nat) (rest : List Nat) (row : CellRow),
      headerKeywordRow m = none → candidateRows m = r :: rest →
      lookupRow m r = some row → (∃ p ∈ row, cfuShapedCell p.2 = true) →
      findHeaderRow m = some (-1)) ∧
    findHeaderRow noHeaderMatrix = some (-1) := by
  constructor
  · intro m r rest row h1 h2 h3 h4
    have hcfu : rowHasCfuPattern row = true := by
      obtain ⟨p, hp, hc⟩ := h4
      exact List.any_eq_true.mpr ⟨p, hp, hc⟩
    simp [findHeaderRow, h1, h2, h3, hcfu]
  · decide

theorem c9_witness :
    findHeaderRow noHeaderMatrix = some (-1) :=
  c9_no_header_on_cfu_row.1 noHeaderMatrix 0 [] [(0, "E.coli"), (1, "1.2×10^5")]
    (by decide) (by decide) (by decide) ⟨(1, "1.2×10^5"), by decide, by decide⟩

/-- C10: in the day-7/14/28 columns the Value Normalizer maps each of the
    non-empty ellipsis inputs `"..."`, `"...."` and `"…"` to the empty string,
    while in the day-0 column the same inputs pass through unchanged. -/
theorem c10_ellipsis_to_empty :
    ((["...", "....", "…"].all (fun x =>
        (["7일", "14일", "28일"].all (fun d => cleanCfuValue x "E.coli" d == "")) &&
        cleanCfuValue x "E.coli" "0일" == x && x != "")) = true) := by
  decide

end MicroLabOcr
